import Mathlib

/-!
Verification development for the `claude-provider` credential card component
(`src/components/CredentialCard/index.tsx` and its `types.ts`).

The component is a pure, synchronous rendering function of a credential
snapshot plus three busy flags.  We embed it shallowly: the snapshot and the
produced view are Lean structures, and `renderCard` transcribes the component
body.  JavaScript idioms that matter for the semantics are modelled
explicitly:

* `x || d` on a string applies the default to every falsy value, i.e. to an
  absent field and to the empty string alike (`jsOrString`);
* a conditional render guard `x && (...)` renders only when `x` is truthy,
  so an empty string suppresses the row (`strTruthy`);
* bracket lookup on an object literal (`AUTH_TYPE_LABELS[authType]`)
  consults the prototype chain: a key naming an `Object.prototype` member
  such as "toString" yields that inherited, truthy value rather than
  `undefined`, so the `||` fallback does not fire for it
  (`bracketLookup`, `JsValue`);
* `new Date(s)` never throws: an unparsable string yields an Invalid Date,
  and `Date.prototype.toLocaleString` on an Invalid Date returns the string
  "Invalid Date" (ECMA-402) rather than throwing, so the `catch` branch of
  `formatDate` is unreachable.
-/

namespace ClaudeProvider

/-- The loosely-typed `credential_data` attribute bag (`CredentialData`
interface, index.tsx lines 35-42).  Every field is optional. -/
structure CredentialData where
  auth_type : Option String
  email : Option String
  region : Option String
  base_url : Option String
  expire : Option String
  last_refresh : Option String
deriving Repr, DecidableEq

/-- The credential snapshot consumed by the card (the `CredentialDisplay`
shape the component reads: uuid, name, is_disabled, health_status,
usage_count, error_count, last_error, credential_data). -/
structure CredentialDisplay where
  uuid : String
  name : Option String
  is_disabled : Bool
  health_status : Option String
  usage_count : Option Nat
  error_count : Option Nat
  last_error : Option String
  credential_data : Option CredentialData
deriving Repr, DecidableEq

/-- The three externally owned busy flags passed as props. -/
structure BusyFlags where
  deleting : Bool
  checkingHealth : Bool
  refreshingToken : Bool
deriving Repr, DecidableEq

/-- JS truthiness of an optional string value: `undefined` and `""` are the
falsy string values. -/
def strTruthy : Option String → Bool
  | none => false
  | some s => s ≠ ""

/-- The JS `x || d` idiom on an optional string field read through a fixed
property name that `Object.prototype` does not provide (`auth_type`,
`name`, ...): the access yields the own string property or `undefined`,
and the default replaces every falsy value, i.e. both an absent field and
the empty string. -/
def jsOrString (x : Option String) (d : String) : String :=
  match x with
  | none => d
  | some s => if s = "" then d else s

/-- A JS value that a bracket lookup on one of the string-valued object
literals can produce: an own string property, an inherited
`Object.prototype` member (a function, or the `__proto__` accessor's
object — every one of them truthy), or `undefined`. -/
inductive JsValue where
  | str : String → JsValue
  | protoFn : String → JsValue
  | undefined
deriving Repr, DecidableEq

/-- JS truthiness of a `JsValue`: the empty string and `undefined` are
falsy; every inherited `Object.prototype` member is truthy. -/
def truthy : JsValue → Bool
  | JsValue.str s => s ≠ ""
  | JsValue.protoFn _ => true
  | JsValue.undefined => false

/-- The JS `a || b` expression on such values. -/
def jsOr (a b : JsValue) : JsValue :=
  if truthy a then a else b

/-- The property names an object literal inherits from `Object.prototype`
(ECMA-262, including the Annex B accessor helpers and `__proto__`). -/
def objectPrototypeKeys : List String :=
  ["constructor", "hasOwnProperty", "isPrototypeOf", "propertyIsEnumerable",
   "toLocaleString", "toString", "valueOf",
   "__defineGetter__", "__defineSetter__", "__lookupGetter__", "__lookupSetter__",
   "__proto__"]

/-- Icon identifiers imported by the component. -/
inductive Icon where
  | key
  | terminal
  | building
  | lock
  | cloud
  | server
  | checkCircle
  | xCircle
  | loader2
  | zap
  | refreshCw
  | trash2
  | edit
  | rotateCcw
  | clock
  | mail
  | globe
deriving Repr, DecidableEq

/-- `getAuthTypeIcon` (index.tsx lines 44-54): a switch over the auth type
with `Key` as the default branch. -/
def getAuthTypeIcon (authType : String) : Icon :=
  if authType = "oauth" then Icon.key
  else if authType = "claude_code" then Icon.terminal
  else if authType = "console" then Icon.building
  else if authType = "setup_token" then Icon.lock
  else if authType = "bedrock" then Icon.cloud
  else if authType = "ccr" then Icon.server
  else Icon.key

/-- JS bracket lookup on a string-valued object literal: an own key
(shadowing anything inherited) yields its string value; a missing own key
falls through to the prototype chain, where a key naming an
`Object.prototype` member yields that inherited truthy value; any other
key yields `undefined`. -/
def bracketLookup (k : String) (m : List (String × String)) : JsValue :=
  match m with
  | [] => if k ∈ objectPrototypeKeys then JsValue.protoFn k else JsValue.undefined
  | (k2, v) :: rest => if k = k2 then JsValue.str v else bracketLookup k rest

/-- `AUTH_TYPE_LABELS` (types.ts lines 201-208). -/
def AUTH_TYPE_LABELS : List (String × String) :=
  [("oauth", "OAuth"),
   ("claude_code", "Claude Code"),
   ("console", "Console"),
   ("setup_token", "Setup Token"),
   ("bedrock", "Bedrock"),
   ("ccr", "CCR")]

/-- `AUTH_TYPE_COLORS` (types.ts lines 213-220). -/
def AUTH_TYPE_COLORS : List (String × String) :=
  [("oauth", "blue"),
   ("claude_code", "purple"),
   ("console", "green"),
   ("setup_token", "yellow"),
   ("bedrock", "orange"),
   ("ccr", "gray")]

/-- `Array.prototype.includes` on a string array: sequential equality test. -/
def includes (l : List String) (x : String) : Bool :=
  match l with
  | [] => false
  | y :: ys => if y = x then true else includes ys x

/-- `supportsTokenRefresh` (index.tsx lines 64-66). -/
def supportsTokenRefresh (authType : String) : Bool :=
  includes ["oauth", "claude_code", "console"] authType

/-- `isHealthy` (index.tsx line 74):
`!credential.is_disabled && credential.health_status !== "unhealthy"`;
an absent `health_status` compares unequal to `"unhealthy"`. -/
def isHealthy (c : CredentialDisplay) : Bool :=
  !c.is_disabled && c.health_status != some "unhealthy"

/-- Reads exactly `n` decimal digits from the front of `cs`, accumulating the
value onto `acc`; fails when a non-digit or the end of input intervenes. -/
def readDigits : Nat → List Char → Nat → Option (Nat × List Char)
  | 0, cs, acc => some (acc, cs)
  | n + 1, c :: cs, acc =>
      if c.isDigit then readDigits n cs (acc * 10 + (c.toNat - 48)) else none
  | _ + 1, [], _ => none

/-- Consumes an optional fractional-seconds part `.sss` (exactly three
digits, per the ECMA-262 date time string format). -/
def dropFraction (cs : List Char) : Option (List Char) :=
  match cs with
  | '.' :: rest =>
      match readDigits 3 rest 0 with
      | some (_, rest2) => some rest2
      | none => none
  | _ => some cs

/-- Consumes an optional seconds part `:ss` with optional fraction. -/
def parseSeconds (cs : List Char) : Option (List Char) :=
  match cs with
  | ':' :: rest =>
      match readDigits 2 rest 0 with
      | some (s, rest2) => if s ≤ 59 then dropFraction rest2 else none
      | none => none
  | _ => some cs

/-- Accepts an empty or `Z` timezone designator at the end of the string. -/
def parseZone : List Char → Bool
  | [] => true
  | ['Z'] => true
  | _ => false

/-- The calendar components of a parsed date that the card formatter
displays. -/
structure DateParts where
  month : Nat
  day : Nat
  hour : Nat
  minute : Nat
deriving Repr, DecidableEq

/-- Models `new Date(s)` on a string argument per the ECMA-262 date time
string format `YYYY-MM-DD` with optional `THH:MM`, optional `:SS(.sss)` and
an optional trailing `Z`; `none` models an Invalid Date (a string outside
the modelled grammar; numeric timezone offsets and the year-only and
year-month short forms are outside the model).  Date construction never
throws.  The host timezone is modelled as UTC, so the displayed local
components coincide with the parsed components. -/
def jsDateParse (s : String) : Option DateParts :=
  match readDigits 4 s.toList 0 with
  | none => none
  | some (_, r1) =>
    match r1 with
    | '-' :: r2 =>
      match readDigits 2 r2 0 with
      | none => none
      | some (mo, r3) =>
        if mo < 1 ∨ 12 < mo then none else
        match r3 with
        | '-' :: r4 =>
          match readDigits 2 r4 0 with
          | none => none
          | some (dy, r5) =>
            if dy < 1 ∨ 31 < dy then none else
            match r5 with
            | [] => some ⟨mo, dy, 0, 0⟩
            | 'T' :: r6 =>
              match readDigits 2 r6 0 with
              | none => none
              | some (hh, r7) =>
                if 23 < hh then none else
                match r7 with
                | ':' :: r8 =>
                  match readDigits 2 r8 0 with
                  | none => none
                  | some (mi, r9) =>
                    if 59 < mi then none else
                    match parseSeconds r9 with
                    | none => none
                    | some r10 => if parseZone r10 then some ⟨mo, dy, hh, mi⟩ else none
                | _ => none
            | _ => none
        | _ => none
    | _ => none

/-- Left-pads a numeral to two digits, as the `2-digit` locale option does. -/
def pad2 (n : Nat) : String :=
  if n < 10 then "0" ++ toString n else toString n

/-- `formatDate` (index.tsx lines 56-62).  The body is
`try { return new Date(dateStr).toLocaleString("zh-CN", ...) } catch { return dateStr }`.
Per ECMA-262, `new Date` on a string never throws (an unparsable string
yields an Invalid Date), and per ECMA-402 `toLocaleString` on an Invalid
Date returns the string "Invalid Date" rather than throwing; hence the
`catch` branch is dead and the raw input is never returned.  For a valid
date the `zh-CN` locale with 2-digit month, day, hour and minute renders
`MM/DD HH:MM`. -/
def formatDate (dateStr : String) : String :=
  match jsDateParse dateStr with
  | none => "Invalid Date"
  | some p => pad2 p.month ++ "/" ++ pad2 p.day ++ " " ++ pad2 p.hour ++ ":" ++ pad2 p.minute

/-- Models `String.prototype.slice(0, n)`: the first `n` characters, or the
whole string when it is shorter than `n`. -/
def sliceFirst (s : String) (n : Nat) : String :=
  String.mk (s.toList.take n)

/-- The truncated identifier shown in the header (index.tsx line 86):
`credential.uuid.slice(0, 8)` followed by a literal ellipsis marker. -/
def truncateId (id : String) : String :=
  sliceFirst id 8 ++ "..."

/-- The attribute bag with every field absent: `{}` in
`(credential.credential_data || {})` (index.tsx line 72). -/
def emptyCredentialData : CredentialData :=
  { auth_type := none, email := none, region := none, base_url := none,
    expire := none, last_refresh := none }

/-- Index.tsx line 72: `credential.credential_data || {}`.  An object is
never falsy, so only an absent bag takes the default. -/
def credDataOf (c : CredentialDisplay) : CredentialData :=
  c.credential_data.getD emptyCredentialData

/-- Index.tsx line 73: `data.auth_type || "oauth"` — the default applies to
every falsy value, i.e. to an absent field and to the empty string. -/
def authTypeOf (c : CredentialDisplay) : String :=
  jsOrString (credDataOf c).auth_type "oauth"

/-- The callback slot a footer or header control is wired to. -/
inductive ActionId where
  | toggle
  | delete
  | reset
  | checkHealth
  | refreshToken
  | edit
deriving Repr, DecidableEq

/-- A rendered footer button: its callback wiring, whether it is rendered
disabled, and the icon currently shown (`Icon.loader2` is the busy
spinner). -/
structure ButtonView where
  action : ActionId
  disabled : Bool
  icon : Icon
deriving Repr, DecidableEq

/-- The auth-type badge: icon, the JS value rendered as the label text, and
the JS value interpolated as the color token into the badge background
class.  Both are `JsValue`s because the lookups can surface an inherited
`Object.prototype` member for keys such as "toString". -/
structure BadgeView where
  icon : Icon
  label : JsValue
  color : JsValue
deriving Repr, DecidableEq

/-- The header toggle switch: its checked state and whether it is rendered
disabled.  The source passes no disabled prop to the `Switch`, which
therefore always renders enabled. -/
structure ToggleView where
  checked : Bool
  disabled : Bool
deriving Repr, DecidableEq

/-- The rendered card header (index.tsx lines 79-94). -/
structure HeaderView where
  healthIcon : Icon
  nameText : String
  idText : String
  badge : BadgeView
  toggle : ToggleView
deriving Repr, DecidableEq

/-- Which optional fact row of the body a rendered row is. -/
inductive RowKind where
  | email
  | region
  | baseUrl
  | expire
  | lastRefresh
deriving Repr, DecidableEq

/-- A rendered optional fact row of the body. -/
structure FactRow where
  kind : RowKind
  icon : Icon
  labelText : String
  value : String
deriving Repr, DecidableEq

/-- The rendered card body (index.tsx lines 96-139). -/
structure BodyView where
  rows : List FactRow
  usageCount : Nat
  errorCount : Nat
  lastErrorText : Option String
deriving Repr, DecidableEq

/-- The whole rendered card. -/
structure CardView where
  deEmphasized : Bool
  header : HeaderView
  body : BodyView
  footer : List ButtonView
deriving Repr, DecidableEq

/-- The `CredentialCard` component body (index.tsx lines 68-157) as a pure
view function of the snapshot and the busy flags.  Row guards are JS
truthiness tests (`data.email && (...)`), the counters apply `|| 0`, and
the refresh-token button is rendered only when `supportsTokenRefresh`
holds of the defaulted auth type. -/
def renderCard (c : CredentialDisplay) (f : BusyFlags) : CardView :=
  let data := credDataOf c
  let authType := authTypeOf c
  { deEmphasized := c.is_disabled
    header :=
      { healthIcon := if isHealthy c then Icon.checkCircle else Icon.xCircle
        nameText := jsOrString c.name "未命名凭证"
        idText := truncateId c.uuid
        badge :=
          { icon := getAuthTypeIcon authType
            label := jsOr (bracketLookup authType AUTH_TYPE_LABELS) (JsValue.str authType)
            color := jsOr (bracketLookup authType AUTH_TYPE_COLORS) (JsValue.str "gray") }
        toggle := { checked := !c.is_disabled, disabled := false } }
    body :=
      { rows :=
          (if strTruthy data.email then
            [{ kind := RowKind.email, icon := Icon.mail, labelText := "邮箱:",
               value := data.email.getD "" }] else []) ++
          (if strTruthy data.region then
            [{ kind := RowKind.region, icon := Icon.globe, labelText := "区域:",
               value := data.region.getD "" }] else []) ++
          (if strTruthy data.base_url then
            [{ kind := RowKind.baseUrl, icon := Icon.globe, labelText := "Base URL:",
               value := data.base_url.getD "" }] else []) ++
          (if strTruthy data.expire then
            [{ kind := RowKind.expire, icon := Icon.clock, labelText := "过期:",
               value := formatDate (data.expire.getD "") }] else []) ++
          (if strTruthy data.last_refresh then
            [{ kind := RowKind.lastRefresh, icon := Icon.refreshCw, labelText := "刷新:",
               value := formatDate (data.last_refresh.getD "") }] else [])
        usageCount := c.usage_count.getD 0
        errorCount := c.error_count.getD 0
        lastErrorText := if strTruthy c.last_error then some (c.last_error.getD "") else none }
    footer :=
      [{ action := ActionId.edit, disabled := false, icon := Icon.edit },
       { action := ActionId.reset, disabled := false, icon := Icon.rotateCcw },
       { action := ActionId.checkHealth, disabled := f.checkingHealth,
         icon := if f.checkingHealth then Icon.loader2 else Icon.zap }] ++
      (if supportsTokenRefresh authType then
        [{ action := ActionId.refreshToken, disabled := f.refreshingToken,
           icon := if f.refreshingToken then Icon.loader2 else Icon.refreshCw }] else []) ++
      [{ action := ActionId.delete, disabled := f.deleting,
         icon := if f.deleting then Icon.loader2 else Icon.trash2 }] }

/-- The classification of an auth-type string into badge label, icon and
color token, as composed by the badge render (index.tsx lines 88-91):
`AUTH_TYPE_LABELS[authType] || authType`, `getAuthTypeIcon(authType)`, and
`AUTH_TYPE_COLORS[authType] || "gray"`. -/
structure AuthTypeMeta where
  label : JsValue
  iconId : Icon
  colorToken : JsValue
deriving Repr, DecidableEq

/-- `classify` applies the two bracket lookups (prototype chain included)
with their falsy fallbacks and the icon switch to a raw auth-type
string. -/
def classify (authType : String) : AuthTypeMeta :=
  { label := jsOr (bracketLookup authType AUTH_TYPE_LABELS) (JsValue.str authType)
    iconId := getAuthTypeIcon authType
    colorToken := jsOr (bracketLookup authType AUTH_TYPE_COLORS) (JsValue.str "gray") }

/-- The six own keys of the two auth-type tables. -/
def knownAuthKeys : List String :=
  ["oauth", "claude_code", "console", "setup_token", "bedrock", "ccr"]

/-- The source field of the attribute bag that feeds a given body row. -/
def fieldOf (k : RowKind) (d : CredentialData) : Option String :=
  match k with
  | RowKind.email => d.email
  | RowKind.region => d.region
  | RowKind.baseUrl => d.base_url
  | RowKind.expire => d.expire
  | RowKind.lastRefresh => d.last_refresh

/-- All three busy flags off. -/
def exampleFlags : BusyFlags :=
  { deleting := false, checkingHealth := false, refreshingToken := false }

/-- All three busy flags on. -/
def allBusy : BusyFlags :=
  { deleting := true, checkingHealth := true, refreshingToken := true }

/-- A plain enabled OAuth credential. -/
def exampleCred : CredentialDisplay :=
  { uuid := "abcdef0123456789", name := some "prod", is_disabled := false,
    health_status := none, usage_count := some 3, error_count := some 0,
    last_error := none,
    credential_data := some { emptyCredentialData with auth_type := some "oauth" } }

/-- A disabled credential whose external health probe reports healthy. -/
def exampleDisabled : CredentialDisplay :=
  { uuid := "abcdef0123456789", name := none, is_disabled := true,
    health_status := some "healthy", usage_count := none, error_count := none,
    last_error := none, credential_data := none }

/-- A credential whose attribute bag carries an email field holding the
empty string. -/
def exampleEmptyEmail : CredentialDisplay :=
  { uuid := "abcdef0123456789", name := none, is_disabled := false,
    health_status := none, usage_count := none, error_count := none,
    last_error := none,
    credential_data := some { emptyCredentialData with email := some "" } }

/-- A credential whose attribute bag carries the empty string as its auth
type. -/
def exampleEmptyAuth : CredentialDisplay :=
  { uuid := "abcdef0123456789", name := none, is_disabled := false,
    health_status := none, usage_count := none, error_count := none,
    last_error := none,
    credential_data := some { emptyCredentialData with auth_type := some "" } }

/-- Claim C1: the derived health signal equals
`(not isDisabled) && (healthStatus != "unhealthy")`: it holds exactly when
the credential is enabled and the health status differs from `"unhealthy"`
(an absent status counts as not unhealthy), and a disabled credential is
never reported healthy regardless of its health status. -/
theorem C1_health_signal (c : CredentialDisplay) :
    (isHealthy c = true ↔ (c.is_disabled = false ∧ c.health_status ≠ some "unhealthy")) ∧
    (c.is_disabled = true → isHealthy c = false) := by
  constructor
  · simp [isHealthy, bne_iff_ne]
  · intro h
    simp [isHealthy, h]

/-- Witness for C1 at a disabled credential whose probe reports healthy:
the signal is still false. -/
theorem C1_health_signal_witness : isHealthy exampleDisabled = false :=
  (C1_health_signal exampleDisabled).2 rfl

/-- Counterexample to claim C2 as stated, at two concrete inputs: the
classification of the empty string yields the raw empty label (so not
every input yields a non-empty label), and the classification of the
unknown key "toString" — outside the six known keys — yields the inherited
`Object.prototype` member as label and color (the inherited value is
truthy, so the `||` fallback does not fire), not the raw key and not the
gray token. -/
theorem C2_classify_counterexample :
    (classify "").label = JsValue.str "" ∧
    (classify "toString").label = JsValue.protoFn "toString" ∧
    (classify "toString").colorToken = JsValue.protoFn "toString" :=
  ⟨rfl, rfl, rfl⟩

/-- Claim C2 (amended): the classification is total — the label and the
color token are never `undefined` for any input, and the icon falls back
to the key icon outside the six known keys; for every input that is
neither a known key nor one of the twelve inherited `Object.prototype`
property names, the label is the raw input verbatim (hence non-empty for
non-empty input) and the color is the gray token.  The raw-label/gray
fallback cannot extend to the inherited property names, whose truthy
inherited members defeat the `||` fallback, nor can non-emptiness extend
to the empty-string input, whose fallback label is the raw empty input. -/
theorem C2_classify_total_amended (s : String) :
    (classify s).label ≠ JsValue.undefined ∧
    (classify s).colorToken ≠ JsValue.undefined ∧
    (s ∉ knownAuthKeys → (classify s).iconId = Icon.key) ∧
    (s ∉ objectPrototypeKeys → s ≠ "" → (classify s).label ≠ JsValue.str "") ∧
    (s ∉ objectPrototypeKeys → s ∉ knownAuthKeys →
      (classify s).label = JsValue.str s ∧ (classify s).colorToken = JsValue.str "gray") := by
  by_cases h1 : s = "oauth"
  · subst h1
    exact ⟨by decide, by decide, fun hm => absurd (by decide) hm, fun _ _ => by decide,
      fun _ hm => absurd (by decide) hm⟩
  by_cases h2 : s = "claude_code"
  · subst h2
    exact ⟨by decide, by decide, fun hm => absurd (by decide) hm, fun _ _ => by decide,
      fun _ hm => absurd (by decide) hm⟩
  by_cases h3 : s = "console"
  · subst h3
    exact ⟨by decide, by decide, fun hm => absurd (by decide) hm, fun _ _ => by decide,
      fun _ hm => absurd (by decide) hm⟩
  by_cases h4 : s = "setup_token"
  · subst h4
    exact ⟨by decide, by decide, fun hm => absurd (by decide) hm, fun _ _ => by decide,
      fun _ hm => absurd (by decide) hm⟩
  by_cases h5 : s = "bedrock"
  · subst h5
    exact ⟨by decide, by decide, fun hm => absurd (by decide) hm, fun _ _ => by decide,
      fun _ hm => absurd (by decide) hm⟩
  by_cases h6 : s = "ccr"
  · subst h6
    exact ⟨by decide, by decide, fun hm => absurd (by decide) hm, fun _ _ => by decide,
      fun _ hm => absurd (by decide) hm⟩
  have hlab : bracketLookup s AUTH_TYPE_LABELS =
      (if s ∈ objectPrototypeKeys then JsValue.protoFn s else JsValue.undefined) := by
    simp [bracketLookup, AUTH_TYPE_LABELS, h1, h2, h3, h4, h5, h6]
  have hcol : bracketLookup s AUTH_TYPE_COLORS =
      (if s ∈ objectPrototypeKeys then JsValue.protoFn s else JsValue.undefined) := by
    simp [bracketLookup, AUTH_TYPE_COLORS, h1, h2, h3, h4, h5, h6]
  have hicon : (classify s).iconId = Icon.key := by
    simp [classify, getAuthTypeIcon, h1, h2, h3, h4, h5, h6]
  by_cases hp : s ∈ objectPrototypeKeys
  · refine ⟨?_, ?_, fun _ => hicon, fun hpn => absurd hp hpn, fun hpn => absurd hp hpn⟩
    · simp [classify, hlab, hp, jsOr, truthy]
    · simp [classify, hcol, hp, jsOr, truthy]
  · have hlab2 : (classify s).label = JsValue.str s := by
      simp [classify, hlab, hp, jsOr, truthy]
    have hcol2 : (classify s).colorToken = JsValue.str "gray" := by
      simp [classify, hcol, hp, jsOr, truthy]
    refine ⟨?_, ?_, fun _ => hicon, fun _ hs => ?_, fun _ _ => ⟨hlab2, hcol2⟩⟩
    · rw [hlab2]
      simp
    · rw [hcol2]
      simp
    · rw [hlab2]
      simp [hs]

/-- Witness for the amended C2 at the unknown non-empty key "weird",
outside both the known keys and the inherited property names: defined
non-undefined label, key icon, raw-key label, gray color. -/
theorem C2_classify_total_amended_witness :
    (classify "weird").label ≠ JsValue.undefined ∧
    (classify "weird").iconId = Icon.key ∧
    (classify "weird").label = JsValue.str "weird" ∧
    (classify "weird").colorToken = JsValue.str "gray" :=
  ⟨(C2_classify_total_amended "weird").1,
   (C2_classify_total_amended "weird").2.2.1 (by decide),
   ((C2_classify_total_amended "weird").2.2.2.2 (by decide) (by decide)).1,
   ((C2_classify_total_amended "weird").2.2.2.2 (by decide) (by decide)).2⟩

/-- Claim C3: the formatter indeed never throws, but on the syntactically
invalid input "not-a-date" it returns the string "Invalid Date" — not the
input unchanged as the claim states — because `new Date` never throws and
`toLocaleString` of an Invalid Date is the string "Invalid Date", leaving
the source's `catch { return dateStr }` branch unreachable; on a valid ISO
string it returns the locale-formatted `MM/DD HH:MM` text. -/
theorem C3_formatDate_invalid_date :
    formatDate "not-a-date" = "Invalid Date" ∧
    "Invalid Date" ≠ "not-a-date" ∧
    formatDate "2024-01-15T10:30:00Z" = "01/15 10:30" :=
  ⟨rfl, by decide, rfl⟩

/-- Claim C4: the refresh-eligibility test accepts exactly the strings
"oauth", "claude_code" and "console" and rejects every other string. -/
theorem C4_refresh_eligibility (s : String) :
    supportsTokenRefresh s = true ↔ (s = "oauth" ∨ s = "claude_code" ∨ s = "console") := by
  constructor
  · intro h
    simp [supportsTokenRefresh, includes] at h
    rcases h with h | h | h
    exacts [Or.inl h.symm, Or.inr (Or.inl h.symm), Or.inr (Or.inr h.symm)]
  · rintro (h | h | h) <;> subst h <;> rfl

/-- Claim C5: the refresh-token button occurs in the rendered footer
exactly when the defaulted auth type is refresh-eligible; for ineligible
auth types no refresh-token control exists anywhere in the output. -/
theorem C5_refresh_button_visibility (c : CredentialDisplay) (f : BusyFlags) :
    (∃ b ∈ (renderCard c f).footer, b.action = ActionId.refreshToken) ↔
      supportsTokenRefresh (authTypeOf c) = true := by
  rcases Bool.eq_false_or_eq_true (supportsTokenRefresh (authTypeOf c)) with hs | hs <;>
    simp [renderCard, hs]

/-- Claim C6: the truncated identifier of an id of length at least 8 is
exactly its first 8 characters followed by the three-character ellipsis
marker, and the truncated identifier of a shorter id is the whole id
followed by the marker. -/
theorem C6_truncateId_spec (id : String) :
    (8 ≤ id.length →
      (truncateId id).toList.length = 8 + 3 ∧
      (truncateId id).toList = id.toList.take 8 ++ ("...").toList) ∧
    (id.length < 8 → truncateId id = id ++ "...") := by
  constructor
  · intro h
    have htl : (truncateId id).toList = id.toList.take 8 ++ ("...").toList := rfl
    refine ⟨?_, htl⟩
    rw [htl, List.length_append, List.length_take]
    have hl : 8 ≤ id.toList.length := h
    rw [Nat.min_eq_left hl]
    decide
  · intro h
    show String.mk (id.toList.take 8) ++ "..." = id ++ "..."
    have ht : id.toList.take 8 = id.toList := by
      apply List.take_of_length_le
      show id.length ≤ 8
      omega
    rw [ht]
    rfl

/-- Witness for C6 at a 10-character id and a 3-character id. -/
theorem C6_truncateId_spec_witness :
    ((truncateId "abcdefghij").toList.length = 8 + 3 ∧
      (truncateId "abcdefghij").toList = "abcdefghij".toList.take 8 ++ ("...").toList) ∧
    truncateId "abc" = "abc" ++ "..." :=
  ⟨(C6_truncateId_spec "abcdefghij").1 (by decide),
   (C6_truncateId_spec "abc").2 (by decide)⟩

/-- Claim C7: in every rendered footer the health-check button is disabled
and shows the spinner icon exactly when `checkingHealth` is set, the
refresh-token button (when present) is disabled and shows the spinner
exactly when `refreshingToken` is set, the delete button is disabled
exactly when `deleting` is set, and the edit and reset buttons are enabled
with their static icons under every combination of busy flags. -/
theorem C7_busy_flags (c : CredentialDisplay) (f : BusyFlags) (b : ButtonView)
    (hb : b ∈ (renderCard c f).footer) :
    (b.action = ActionId.checkHealth →
      b.disabled = f.checkingHealth ∧ (b.icon = Icon.loader2 ↔ f.checkingHealth = true)) ∧
    (b.action = ActionId.refreshToken →
      b.disabled = f.refreshingToken ∧ (b.icon = Icon.loader2 ↔ f.refreshingToken = true)) ∧
    (b.action = ActionId.delete → b.disabled = f.deleting) ∧
    (b.action = ActionId.edit → b.disabled = false ∧ b.icon = Icon.edit) ∧
    (b.action = ActionId.reset → b.disabled = false ∧ b.icon = Icon.rotateCcw) := by
  obtain ⟨fd, fch, frt⟩ := f
  rcases Bool.eq_false_or_eq_true (supportsTokenRefresh (authTypeOf c)) with hs | hs <;>
    cases fd <;> cases fch <;> cases frt <;>
    simp [renderCard, hs] at hb <;>
    rcases hb with rfl | rfl | rfl | rfl | rfl <;>
    simp

/-- Witness for C7: with every busy flag set, the rendered health-check
button of a plain OAuth credential is disabled and shows the spinner. -/
theorem C7_busy_flags_witness :
    ({ action := ActionId.checkHealth, disabled := true, icon := Icon.loader2 } :
        ButtonView).disabled = allBusy.checkingHealth ∧
    (({ action := ActionId.checkHealth, disabled := true, icon := Icon.loader2 } :
        ButtonView).icon = Icon.loader2 ↔ allBusy.checkingHealth = true) :=
  (C7_busy_flags exampleCred allBusy
    { action := ActionId.checkHealth, disabled := true, icon := Icon.loader2 }
    (by decide)).1 rfl

/-- Counterexample to claim C8 as stated: a snapshot whose email field is
present but holds the empty string renders no email row (the guard is JS
truthiness, not presence), so a row is not rendered if and only if its
field is present. -/
theorem C8_row_presence_counterexample :
    (credDataOf exampleEmptyEmail).email = some "" ∧
    (renderCard exampleEmptyEmail exampleFlags).body.rows = [] :=
  ⟨rfl, rfl⟩

/-- Claim C8 (amended): the body renders the optional fact rows in the
fixed order email, region, base URL, expiry, last refresh, each present
exactly when its source field is present and non-empty (JS truthiness);
the usage and error counters are always rendered and default to 0 when
absent; the last-error text is rendered exactly when `lastError` is
present and non-empty. -/
theorem C8_body_region_amended (c : CredentialDisplay) (f : BusyFlags) :
    List.map FactRow.kind (renderCard c f).body.rows =
      List.filter (fun k => strTruthy (fieldOf k (credDataOf c)))
        [RowKind.email, RowKind.region, RowKind.baseUrl, RowKind.expire, RowKind.lastRefresh] ∧
    (renderCard c f).body.usageCount = c.usage_count.getD 0 ∧
    (renderCard c f).body.errorCount = c.error_count.getD 0 ∧
    (renderCard c f).body.lastErrorText.isSome = strTruthy c.last_error := by
  refine ⟨?_, rfl, rfl, ?_⟩
  · cases he : strTruthy (credDataOf c).email <;>
    cases hr : strTruthy (credDataOf c).region <;>
    cases hu : strTruthy (credDataOf c).base_url <;>
    cases hx : strTruthy (credDataOf c).expire <;>
    cases hl : strTruthy (credDataOf c).last_refresh <;>
    simp [renderCard, fieldOf, he, hr, hu, hx, hl, List.filter]
  · cases hle : strTruthy c.last_error <;> simp [renderCard, hle]

/-- Claim C9: an empty-string auth type is rendered identically to an
absent one — the `||` default applies to every falsy value — so the badge
shows the OAuth label, key icon and blue color and the refresh-token
button is present. -/
theorem C9_empty_auth_type (c : CredentialDisplay) (d : CredentialData) (f : BusyFlags)
    (hd : c.credential_data = some d) (he : d.auth_type = some "") :
    renderCard c f = renderCard { c with credential_data := some { d with auth_type := none } } f ∧
    (renderCard c f).header.badge =
      { icon := Icon.key, label := JsValue.str "OAuth", color := JsValue.str "blue" } ∧
    ∃ b ∈ (renderCard c f).footer, b.action = ActionId.refreshToken := by
  have hauth : authTypeOf c = "oauth" := by
    simp [authTypeOf, credDataOf, hd, he, jsOrString]
  have hauth2 :
      authTypeOf { c with credential_data := some { d with auth_type := none } } = "oauth" := by
    simp [authTypeOf, credDataOf, jsOrString]
  refine ⟨?_, ?_, ?_⟩
  · simp [renderCard, hauth, hauth2, credDataOf, hd, isHealthy]
  · simp [renderCard, hauth, getAuthTypeIcon, bracketLookup, AUTH_TYPE_LABELS,
      AUTH_TYPE_COLORS, jsOr, truthy]
  · simp [renderCard, hauth, supportsTokenRefresh, includes]

/-- Witness for C9 at a credential whose bag holds `auth_type = ""`. -/
theorem C9_empty_auth_type_witness :
    (renderCard exampleEmptyAuth exampleFlags).header.badge =
      { icon := Icon.key, label := JsValue.str "OAuth", color := JsValue.str "blue" } ∧
    ∃ b ∈ (renderCard exampleEmptyAuth exampleFlags).footer,
      b.action = ActionId.refreshToken :=
  ⟨(C9_empty_auth_type exampleEmptyAuth _ exampleFlags rfl rfl).2.1,
   (C9_empty_auth_type exampleEmptyAuth _ exampleFlags rfl rfl).2.2⟩

/-- Claim C10: the header toggle is checked exactly when the credential is
enabled, the toggle is never rendered disabled, and the edit and reset
buttons are never rendered disabled under any combination of busy flags. -/
theorem C10_toggle_and_always_enabled (c : CredentialDisplay) (f : BusyFlags) :
    (renderCard c f).header.toggle.checked = !c.is_disabled ∧
    (renderCard c f).header.toggle.disabled = false ∧
    ∀ b ∈ (renderCard c f).footer,
      (b.action = ActionId.edit ∨ b.action = ActionId.reset) → b.disabled = false := by
  refine ⟨rfl, rfl, ?_⟩
  intro b hb hab
  obtain ⟨fd, fch, frt⟩ := f
  rcases Bool.eq_false_or_eq_true (supportsTokenRefresh (authTypeOf c)) with hs | hs <;>
    cases fd <;> cases fch <;> cases frt <;>
    simp [renderCard, hs] at hb <;>
    rcases hb with rfl | rfl | rfl | rfl | rfl <;>
    first
      | rfl
      | (rcases hab with h | h <;> exact absurd h (by decide))

/-- Witness for C10 at a disabled credential with all busy flags set: the
toggle renders unchecked and enabled, and the edit button enabled. -/
theorem C10_toggle_and_always_enabled_witness :
    (renderCard exampleDisabled allBusy).header.toggle.checked = false ∧
    (renderCard exampleDisabled allBusy).header.toggle.disabled = false ∧
    ({ action := ActionId.edit, disabled := false, icon := Icon.edit } :
        ButtonView).disabled = false :=
  ⟨(C10_toggle_and_always_enabled exampleDisabled allBusy).1,
   (C10_toggle_and_always_enabled exampleDisabled allBusy).2.1,
   (C10_toggle_and_always_enabled exampleDisabled allBusy).2.2
     { action := ActionId.edit, disabled := false, icon := Icon.edit }
     (by decide) (Or.inl rfl)⟩

end ClaudeProvider
